import Mathlib

/-!
Verification of `extract_pdf.py`: a script that invokes an external
text-conversion tool (`textutil`) via `subprocess.run` on one fixed PDF path,
then prints either the captured standard output (exit status 0), an
`Error: <stderr>` line (non-zero exit status), or — when spawning raises an
exception caught by the surrounding `try/except` — a
`Failed to extract PDF: <exception>` line.

The external world is modelled by the result of the single fallible operation,
`subprocess.run`: either it returns a completed process (exit code plus the two
captured text streams) or it raises an exception carrying a description string.
Everything the script does is a pure function of that result.
-/

namespace ExtractPdf

/-- The completed-process record returned by `subprocess.run` when spawning
succeeds: `returncode`, and `stdout` / `stderr` captured as decoded text
(`capture_output=True, text=True` in the source). -/
structure CompletedProcess where
  returncode : Int
  stdout : String
  stderr : String
deriving DecidableEq, Repr

/-- The behaviour of the one fallible call in the script: `Except.ok r` when
`subprocess.run` returns the completed process `r`, `Except.error e` when it
raises an exception whose description is `e`. -/
abbrev SpawnResult := Except String CompletedProcess

/-- The fixed program name invoked by the script (source line 7). -/
def program : String := "textutil"

/-- The fixed input file path hard-coded in the source (line 7). -/
def inputPath : String :=
  "/Users/sachinbuluswar/Desktop/API Reference - OpenAI API.pdf"

/-- The full fixed argument vector passed to `subprocess.run` (source line 7):
program name, conversion-mode flag `-convert txt`, output-mode flag `-stdout`,
and the fixed input file path. -/
def command : List String :=
  [program, "-convert", "txt", "-stdout", inputPath]

/-- The keyword parameters of the `subprocess.run` call in the source:
the argument vector together with `capture_output=True` and `text=True`. -/
structure SubprocessCall where
  args : List String
  captureOutput : Bool
  textMode : Bool
deriving DecidableEq, Repr

/-- The one subprocess invocation the script constructs (source lines 7–8).
It is a constant: the script takes no inputs that influence it. -/
def theCall : SubprocessCall :=
  { args := command, captureOutput := true, textMode := true }

/-- The tri-state outcome named by the spec: `Success` carries the captured
standard output, `ToolFailure` the captured standard error, `LaunchFailure`
the description of the exception raised while spawning. -/
inductive Outcome where
  | Success (text : String)
  | ToolFailure (message : String)
  | LaunchFailure (message : String)
deriving DecidableEq, Repr

/-- The classification kind of an `Outcome`, forgetting the carried text. -/
inductive OutcomeKind where
  | success
  | toolFailure
  | launchFailure
deriving DecidableEq, Repr

/-- Forget the carried text of an `Outcome`, keeping only its kind. -/
def Outcome.kind : Outcome → OutcomeKind
  | .Success _ => .success
  | .ToolFailure _ => .toolFailure
  | .LaunchFailure _ => .launchFailure

/-- The spec's `runExtraction() -> Outcome`, as decided by the source's
branches: exit status 0 yields `Success stdout` (line 9–10), a non-zero exit
status yields `ToolFailure stderr` (lines 11–12), and an exception raised by
the spawn yields `LaunchFailure` with its description (lines 13–14). -/
def runExtraction : SpawnResult → Outcome
  | Except.ok result =>
      if result.returncode = 0 then Outcome.Success result.stdout
      else Outcome.ToolFailure result.stderr
  | Except.error e => Outcome.LaunchFailure e

/-- The body of the `try` block (source lines 5–12): run the subprocess and,
depending on the return code, print either the captured stdout or an
`Error: <stderr>` line.  The value is the list of strings passed to `print`;
`Except.error` propagates an exception out of the block. -/
def tryBlock (spawn : SpawnResult) : Except String (List String) :=
  match spawn with
  | Except.error e => Except.error e
  | Except.ok result =>
      if result.returncode = 0 then
        Except.ok [result.stdout]
      else
        Except.ok ["Error: " ++ result.stderr]

/-- The whole module (source lines 5–14): the `try` block wrapped in
`except Exception as e`, which converts any exception into a
`Failed to extract PDF: <e>` print.  An `Except.error` value here would be an
uncaught exception escaping the script's top level. -/
def moduleRun (spawn : SpawnResult) : Except String (List String) :=
  match tryBlock spawn with
  | Except.ok lines => Except.ok lines
  | Except.error e => Except.ok ["Failed to extract PDF: " ++ e]

/-- The strings passed to `print` during one run of the script. -/
def printedLines (spawn : SpawnResult) : List String :=
  match moduleRun spawn with
  | Except.ok lines => lines
  | Except.error _ => []

/-- Python's `print` writes its argument followed by one newline; the bytes a
run writes to standard output are the printed lines each with `"\n"`
appended. -/
def printBytes (lines : List String) : String :=
  String.join (lines.map (fun l => l ++ "\n"))

/-- The full text a run of the script writes to its standard output. -/
def printedOutput (spawn : SpawnResult) : String :=
  printBytes (printedLines spawn)

/-- The exit code of the script's own process: the Python interpreter exits 0
when the module runs to completion and 1 on an uncaught exception. -/
def scriptExitCode (spawn : SpawnResult) : Nat :=
  match moduleRun spawn with
  | Except.ok _ => 0
  | Except.error _ => 1

/-- The script viewed with its full process-level interface: its command-line
arguments and environment are in scope (Python's `sys` is imported) but no
line of the source reads `sys.argv` or the environment, so the run is a
function of the spawn result alone. -/
def scriptMain (_argv : List String) (_env : List (String × String))
    (spawn : SpawnResult) : List String × Nat :=
  (printedLines spawn, scriptExitCode spawn)

end ExtractPdf

namespace ExtractPdf

/-- Helper: the lines printed when the spawn returns a completed process. -/
theorem printedLines_ok (r : CompletedProcess) :
    printedLines (Except.ok r) =
      if r.returncode = 0 then [r.stdout] else ["Error: " ++ r.stderr] := by
  by_cases h : r.returncode = 0 <;>
    simp [printedLines, moduleRun, tryBlock, h]

/-- Helper: the lines printed when the spawn raises an exception. -/
theorem printedLines_error (e : String) :
    printedLines (Except.error e) = ["Failed to extract PDF: " ++ e] := rfl

/-- Helper: the module always completes normally. -/
theorem moduleRun_eq_ok (spawn : SpawnResult) :
    ∃ lines, moduleRun spawn = Except.ok lines := by
  cases h : tryBlock spawn with
  | ok lines => exact ⟨lines, by simp [moduleRun, h]⟩
  | error e => exact ⟨["Failed to extract PDF: " ++ e], by simp [moduleRun, h]⟩

/-- Helper: appending a newline changes the string. -/
theorem append_newline_ne (s : String) : s ++ "\n" ≠ s := by
  intro h
  have h2 := congrArg String.length h
  simp [String.length_append] at h2
  exact absurd h2 (by decide)

end ExtractPdf

open ExtractPdf

/-- C1: every run of `runExtraction` falls in exactly one of three cases: a
successful spawn with exit status `0` yields `Success` carrying the captured
stdout, a successful spawn with non-zero exit status yields `ToolFailure`
carrying the captured stderr, and a spawn that raises an error yields
`LaunchFailure` carrying the error description. -/
theorem runExtraction_classification (spawn : SpawnResult) :
    (∀ r, spawn = Except.ok r → r.returncode = 0 →
        runExtraction spawn = Outcome.Success r.stdout) ∧
    (∀ r, spawn = Except.ok r → r.returncode ≠ 0 →
        runExtraction spawn = Outcome.ToolFailure r.stderr) ∧
    (∀ e, spawn = Except.error e →
        runExtraction spawn = Outcome.LaunchFailure e) := by
  refine ⟨?_, ?_, ?_⟩
  · rintro r rfl h
    simp [runExtraction, h]
  · rintro r rfl h
    simp [runExtraction, h]
  · rintro e rfl
    rfl

/-- Witness for C1 at a concrete successful spawn. -/
theorem runExtraction_classification_witness :
    runExtraction (Except.ok ⟨0, "some text", ""⟩) = Outcome.Success "some text" :=
  (runExtraction_classification (Except.ok ⟨0, "some text", ""⟩)).1
    ⟨0, "some text", ""⟩ rfl rfl

/-- C2: when the tool exits non-zero with captured stderr `"bad format"`, the
script makes exactly one call to `print`, whose argument is exactly the
string `Error: bad format`. -/
theorem toolFailure_prints_bad_format (r : CompletedProcess)
    (hrc : r.returncode ≠ 0) (herr : r.stderr = "bad format") :
    printedLines (Except.ok r) = ["Error: bad format"] := by
  rw [printedLines_ok, if_neg hrc, herr]
  rfl

/-- Witness for C2 at a concrete failing completed process. -/
theorem toolFailure_prints_bad_format_witness :
    printedLines (Except.ok ⟨1, "", "bad format"⟩) = ["Error: bad format"] :=
  toolFailure_prints_bad_format ⟨1, "", "bad format"⟩ (by decide) rfl

/-- C3: when the tool exits with status zero, the `Success` text is exactly
the captured stdout, and that exact string (unmodified) is the one passed to
`print`. -/
theorem success_prints_stdout_verbatim (r : CompletedProcess)
    (h : r.returncode = 0) :
    runExtraction (Except.ok r) = Outcome.Success r.stdout ∧
    printedLines (Except.ok r) = [r.stdout] := by
  constructor
  · simp [runExtraction, h]
  · rw [printedLines_ok, if_pos h]

/-- Witness for C3 at a concrete zero-exit completed process. -/
theorem success_prints_stdout_verbatim_witness :
    runExtraction (Except.ok ⟨0, "extracted text", "x"⟩) =
        Outcome.Success "extracted text" ∧
    printedLines (Except.ok ⟨0, "extracted text", "x"⟩) = ["extracted text"] :=
  success_prints_stdout_verbatim ⟨0, "extracted text", "x"⟩ rfl

/-- C4: when spawning raises an error whose description is non-empty, the
printed output is the prefix `Failed to extract PDF:`, a space, and that
non-empty description. -/
theorem launchFailure_prints_prefixed (e : String) (he : e ≠ "") :
    ∃ desc, desc ≠ "" ∧
      printedLines (Except.error e) = ["Failed to extract PDF:" ++ " " ++ desc] := by
  refine ⟨e, he, ?_⟩
  have h : "Failed to extract PDF:" ++ " " = "Failed to extract PDF: " := rfl
  rw [h, printedLines_error]

/-- Witness for C4 at a concrete spawn error. -/
theorem launchFailure_prints_prefixed_witness :
    ∃ desc, desc ≠ "" ∧
      printedLines (Except.error "No such file or directory: textutil") =
        ["Failed to extract PDF:" ++ " " ++ desc] :=
  launchFailure_prints_prefixed "No such file or directory: textutil" (by decide)

/-- C5: the script's top level never propagates an uncaught error: for every
spawn behaviour `moduleRun` completes normally with a list of printed
lines. -/
theorem script_never_raises (spawn : SpawnResult) :
    ∃ lines, moduleRun spawn = Except.ok lines :=
  moduleRun_eq_ok spawn

/-- C6: the script's own process exit code is `0` for every spawn behaviour;
failure is never signalled through the exit status. -/
theorem script_exit_code_zero (spawn : SpawnResult) :
    scriptExitCode spawn = 0 := by
  obtain ⟨lines, h⟩ := moduleRun_eq_ok spawn
  simp [scriptExitCode, h]

/-- C7: the subprocess invocation is the fixed constant `theCall`: the program
name `textutil` followed, in order, by the conversion-mode flag
`-convert txt`, the output-mode flag `-stdout`, and one fixed absolute input
file path, with both output streams captured as decoded text. -/
theorem invocation_fixed :
    theCall.args = [program, "-convert", "txt", "-stdout", inputPath] ∧
    program = "textutil" ∧
    theCall.captureOutput = true ∧
    theCall.textMode = true ∧
    ∃ rest, inputPath = "/" ++ rest := by
  refine ⟨rfl, rfl, rfl, rfl,
    ⟨"Users/sachinbuluswar/Desktop/API Reference - OpenAI API.pdf", rfl⟩⟩

/-- C8: two runs whose spawn behaviours are identical (no external state
change between the runs) yield the same classification of outcome. -/
theorem runExtraction_idempotent_kind (s₁ s₂ : SpawnResult) (h : s₁ = s₂) :
    (runExtraction s₁).kind = (runExtraction s₂).kind := by
  rw [h]

/-- Witness for C8 at a concrete pair of identical spawn behaviours. -/
theorem runExtraction_idempotent_kind_witness :
    (runExtraction (Except.ok ⟨0, "t", ""⟩)).kind =
      (runExtraction (Except.ok ⟨0, "t", ""⟩)).kind :=
  runExtraction_idempotent_kind (Except.ok ⟨0, "t", ""⟩) (Except.ok ⟨0, "t", ""⟩) rfl

/-- C9: two runs that differ only in the script's command-line arguments or
environment variables, with the same external tool behaviour, print the same
lines and exit with the same code. -/
theorem output_independent_of_argv_env (argv₁ argv₂ : List String)
    (env₁ env₂ : List (String × String)) (spawn : SpawnResult) :
    scriptMain argv₁ env₁ spawn = scriptMain argv₂ env₂ spawn := rfl

/-- C10: on every outcome the bytes written to standard output are the printed
message with one newline appended: the captured stdout plus `"\n"` on success
(hence not byte-for-byte identical to the captured stdout), and the
`Error:` / `Failed to extract PDF:` messages plus `"\n"` on the two failure
outcomes. -/
theorem printed_output_appends_newline (spawn : SpawnResult) :
    (∀ r, spawn = Except.ok r → r.returncode = 0 →
        printedOutput spawn = r.stdout ++ "\n" ∧
        printedOutput spawn ≠ r.stdout) ∧
    (∀ r, spawn = Except.ok r → r.returncode ≠ 0 →
        printedOutput spawn = ("Error: " ++ r.stderr) ++ "\n") ∧
    (∀ e, spawn = Except.error e →
        printedOutput spawn = ("Failed to extract PDF: " ++ e) ++ "\n") := by
  refine ⟨?_, ?_, ?_⟩
  · rintro r rfl h
    have hl : printedOutput (Except.ok r) = r.stdout ++ "\n" := by
      simp [printedOutput, printBytes, printedLines_ok, h, String.join]
    exact ⟨hl, by rw [hl]; exact append_newline_ne r.stdout⟩
  · rintro r rfl h
    simp [printedOutput, printBytes, printedLines_ok, h, String.join]
  · rintro e rfl
    simp [printedOutput, printBytes, printedLines_error, String.join]

/-- Witness for C10 at a concrete successful spawn. -/
theorem printed_output_appends_newline_witness :
    printedOutput (Except.ok ⟨0, "abc", ""⟩) = "abc" ++ "\n" ∧
    printedOutput (Except.ok ⟨0, "abc", ""⟩) ≠ "abc" :=
  (printed_output_appends_newline (Except.ok ⟨0, "abc", ""⟩)).1 ⟨0, "abc", ""⟩ rfl rfl
